import Mathlib

/-!
Shallow embedding of the booking/scheduling core of the room-booking
management application (route handlers `src/app/api/booking/route.ts` and
`src/app/api/management/rooms/route.ts`, model `src/lib/models/Room.ts`).

JavaScript `Date` values are modelled as natural numbers counting
milliseconds since the epoch in a fixed-offset timezone, so two timestamps
have equal `getFullYear`/`getMonth`/`getDate` components exactly when they
fall on the same day index `t / msPerDay`.  Mongo documents are modelled as
Lean structures; collections as lists in insertion order (`findOne` /
`find?` returns the first match, as Mongo natural order does); the
`_id` of a document is a surrogate `mid : Nat` handed out from a counter in
the system state.  The server-side transaction of the PUT/DELETE handlers is
modelled by returning the pre-transaction state on every aborted branch.
-/

namespace RoomBooking

/-- Milliseconds in one calendar day. -/
def msPerDay : Nat := 86400000

/-- Index of the calendar day a timestamp falls on. -/
def dayOf (t : Nat) : Nat := t / msPerDay

/-- `new Date(d.setHours(0, 0, 0, 0))`: midnight of the day of `t`. -/
def startOfDayTs (t : Nat) : Nat := dayOf t * msPerDay

/-- `new Date(d.setHours(23, 59, 59, 999))`: last millisecond of the day of `t`. -/
def endOfDayTs (t : Nat) : Nat := dayOf t * msPerDay + (msPerDay - 1)

/-- The handlers' same-calendar-date test: equality of the
`getFullYear`, `getMonth` and `getDate` components, i.e. of the day index. -/
def sameCalendarDate (a b : Nat) : Bool := dayOf a == dayOf b

/-- The three-disjunct time-overlap test of the POST handler (lines 208-212)
and the PUT handler (lines 415-419), candidate interval `[aS, aE)` against an
existing interval `[bS, bE)`:
`(aS >= bS && aS < bE) || (aE > bS && aE <= bE) || (aS <= bS && aE >= bE)`. -/
def overlapCheck (aS aE bS bE : Nat) : Bool :=
  (decide (bS ≤ aS) && decide (aS < bE)) ||
  (decide (bS < aE) && decide (aE ≤ bE)) ||
  (decide (aS ≤ bS) && decide (bE ≤ aE))

/-- An element of a room's embedded `schedules` array (`ScheduleSchema`). -/
structure ScheduleEntry where
  date : Nat
  start_time : Nat
  end_time : Nat
  user_id : String
  note : String
deriving Repr, DecidableEq

/-- A `Room` document. -/
structure Room where
  mid : Nat
  room_id : String
  name : String
  location : String
  capacity : Nat
  isActive : Bool
  features : List String
  description : String
  schedules : List ScheduleEntry
deriving Repr, DecidableEq

inductive BookingStatus where
  | PENDING
  | ACCEPTED
  | REJECTED
deriving Repr, DecidableEq

/-- A `Booking` document. -/
structure Booking where
  mid : Nat
  booking_id : String
  user_id : String
  room_id : Nat
  booking_date : Nat
  start_time : Nat
  end_time : Nat
  note : String
  status : BookingStatus
deriving Repr, DecidableEq

/-- The persistent state: the `rooms` and `bookings` collections plus the
counter that hands out fresh document ids. -/
structure SysState where
  rooms : List Room
  bookings : List Booking
  nextMid : Nat
deriving Repr, DecidableEq

/-- Error taxonomy of the booking handlers (the source reports these as
distinct HTTP status / message pairs). -/
inductive BookingError where
  | RoomNotFound
  | RoomInactive
  | InvalidInterval
  | ScheduleConflict
  | PendingConflict
  | BookingNotFound
  | InvalidState
  | Forbidden
  | LedgerWriteFailed
  | DuplicateKey
deriving Repr, DecidableEq

/-- Per-schedule conflict predicate of the POST handler (lines 194-213) and of
the PUT handler's re-check (lines 398-420): same calendar date, then the
three-disjunct time overlap. -/
def scheduleConflictTest (candDate aS aE : Nat) (e : ScheduleEntry) : Bool :=
  sameCalendarDate e.date candDate && overlapCheck aS aE e.start_time e.end_time

/-- The pending/accepted cross-request conflict query of the POST handler
(lines 222-239): same room, `booking_date` between start and end of the
candidate's day, status `PENDING` or `ACCEPTED`, and the existing booking's
time range overlapping the candidate's per the query's three `$or` arms. -/
def pendingConflictTest (rid : Nat) (candDate aS aE : Nat) (b : Booking) : Bool :=
  b.room_id == rid &&
  decide (startOfDayTs candDate ≤ b.booking_date) &&
  decide (b.booking_date ≤ endOfDayTs candDate) &&
  (decide (b.status = .PENDING) || decide (b.status = .ACCEPTED)) &&
  overlapCheck b.start_time b.end_time aS aE

/-- `String.padStart(5, '0')` of the source's id generation. -/
def padStart5 (s : String) : String :=
  String.mk (List.replicate (5 - s.length) '0') ++ s

/-- `` `BK${String(count + 1).padStart(5, '0')}` `` (POST handler, line 249). -/
def mkBookingId (n : Nat) : String := "BK" ++ padStart5 (toString n)

/-- The POST /api/booking handler (booking creation), after authentication and
body parsing.  `booking_date` is submitted as `d`; building the
pending-conflict query mutates the parsed date in place via `setHours`, so the
record that is finally stored carries `endOfDayTs d` as its `booking_date`.
The `Booking` schema declares `booking_id` with `unique: true`, so when the
count-derived id collides with a surviving record (reachable by
delete-then-create), `Booking.create` throws a duplicate-key error that the
handler surfaces as a 500 with nothing stored — modelled as `DuplicateKey`
with the state unchanged. -/
def createBookingRequest (userId : String) (rid : Nat)
    (d st en : Nat) (note : String)
    (s : SysState) : Except BookingError Booking × SysState :=
  match s.rooms.find? (fun r => r.mid == rid) with
  | none => (.error .RoomNotFound, s)
  | some room =>
    if !room.isActive then (.error .RoomInactive, s)
    else if decide (en ≤ st) then (.error .InvalidInterval, s)
    else if room.schedules.any (scheduleConflictTest d st en) then
      (.error .ScheduleConflict, s)
    else if s.bookings.any (pendingConflictTest rid d st en) then
      (.error .PendingConflict, s)
    else if s.bookings.any (fun x => x.booking_id == mkBookingId (s.bookings.length + 1)) then
      (.error .DuplicateKey, s)
    else
      let b : Booking :=
        { mid := s.nextMid
          booking_id := mkBookingId (s.bookings.length + 1)
          user_id := userId
          room_id := rid
          booking_date := endOfDayTs d
          start_time := st
          end_time := en
          note := note
          status := .PENDING }
      (.ok b, { s with bookings := s.bookings ++ [b], nextMid := s.nextMid + 1 })

/-- The admin decision submitted to the PUT /api/booking handler; the handler
rejects any value other than `"ACCEPTED"` or `"REJECTED"` before reaching the
logic modelled here. -/
inductive Decision where
  | ACCEPTED
  | REJECTED
deriving Repr, DecidableEq

/-- The note rewrite of the status update (PUT handler, line 380):
`` adminNote ? `${booking.note || ''}\n\nAdmin Note: ${adminNote}` : booking.note ``
(an absent or empty admin note leaves the note unchanged). -/
def applyAdminNote (note : String) (adminNote : Option String) : String :=
  match adminNote with
  | none => note
  | some an => if an == "" then note else note ++ "\n\nAdmin Note: " ++ an

/-- `Booking.findByIdAndUpdate(booking._id, { status, note }, ...)`. -/
def setBookingDecision (bmid : Nat) (st : BookingStatus) (adminNote : Option String)
    (l : List Booking) : List Booking :=
  l.map (fun b =>
    if b.mid == bmid then { b with status := st, note := applyAdminNote b.note adminNote }
    else b)

/-- The `ScheduleEntry` the PUT handler pushes on acceptance (lines 430-448),
built from the booking's fields. -/
def mkEntry (b : Booking) : ScheduleEntry :=
  { date := b.booking_date
    start_time := b.start_time
    end_time := b.end_time
    user_id := b.user_id
    note := b.note }

/-- `Room.findByIdAndUpdate(booking.room_id, { $push: { schedules: ... } })`. -/
def pushSchedule (rid : Nat) (e : ScheduleEntry) (rooms : List Room) : List Room :=
  rooms.map (fun r =>
    if r.mid == rid then { r with schedules := r.schedules ++ [e] } else r)

/-- The PUT /api/booking handler (admin decision), after the role and
body-shape checks.  The branch bodies mirror the source's transaction: the
status write and the ledger push both happen inside the session, and every
aborted branch returns the pre-transaction state unchanged. -/
def decideBooking (bookingId : String) (decision : Decision) (adminNote : Option String)
    (s : SysState) : Except BookingError Unit × SysState :=
  match s.bookings.find? (fun b => b.booking_id == bookingId) with
  | none => (.error .BookingNotFound, s)
  | some booking =>
    if !(decide (booking.status = .PENDING)) then (.error .InvalidState, s)
    else
      let status : BookingStatus :=
        match decision with
        | .ACCEPTED => .ACCEPTED
        | .REJECTED => .REJECTED
      let bookings1 := setBookingDecision booking.mid status adminNote s.bookings
      match decision with
      | .REJECTED => (.ok (), { s with bookings := bookings1 })
      | .ACCEPTED =>
        match s.rooms.find? (fun r => r.mid == booking.room_id) with
        | none => (.error .RoomNotFound, s)
        | some room =>
          if room.schedules.any
              (scheduleConflictTest booking.booking_date booking.start_time booking.end_time) then
            (.error .ScheduleConflict, s)
          else
            let rooms1 := pushSchedule booking.room_id (mkEntry booking) s.rooms
            -- the source's post-push verification: the updated room document
            -- must exist and list at least one schedule, else abort
            match rooms1.find? (fun r => r.mid == booking.room_id) with
            | none => (.error .LedgerWriteFailed, s)
            | some updated =>
              if updated.schedules.isEmpty then (.error .LedgerWriteFailed, s)
              else (.ok (), { s with bookings := bookings1, rooms := rooms1 })

/-- The `$pull` criteria of the DELETE handler (lines 574-580): exact match on
`date`, `start_time`, `end_time` and `user_id`. -/
def matchesCriteria (date st en : Nat) (uid : String) (e : ScheduleEntry) : Bool :=
  e.date == date && e.start_time == st && e.end_time == en && e.user_id == uid

/-- `$pull: { schedules: {...} }` on a single schedules array: Mongo removes
every element matching the criteria. -/
def ledgerPull (date st en : Nat) (uid : String)
    (l : List ScheduleEntry) : List ScheduleEntry :=
  l.filter (fun e => !(matchesCriteria date st en uid e))

/-- `Room.updateOne({ _id: booking.room_id }, { $pull: ... })`; a no-op when
no room has that id. -/
def pullSchedules (b : Booking) (rooms : List Room) : List Room :=
  rooms.map (fun r =>
    if r.mid == b.room_id then
      { r with schedules :=
          ledgerPull b.booking_date b.start_time b.end_time b.user_id r.schedules }
    else r)

/-- The DELETE /api/booking handler (cancellation), after authentication.
The ledger pull (only for an `ACCEPTED` booking) and the record deletion run
in one transaction; no branch after the ownership check can abort. -/
def cancelBooking (actorId : String) (actorRole : String) (bookingId : String)
    (s : SysState) : Except BookingError Unit × SysState :=
  match s.bookings.find? (fun b => b.booking_id == bookingId) with
  | none => (.error .BookingNotFound, s)
  | some booking =>
    if actorRole != "admin" && booking.user_id != actorId then (.error .Forbidden, s)
    else
      let rooms1 :=
        if decide (booking.status = .ACCEPTED) then pullSchedules booking s.rooms
        else s.rooms
      let bookings1 := s.bookings.filter (fun b => !(b.mid == booking.mid))
      (.ok (), { s with rooms := rooms1, bookings := bookings1 })

/-- Error taxonomy of the room-management handlers. -/
inductive RoomError where
  | Unauthorized
  | MissingFields
  | RoomNotFound
  | RoomIdExists
  | ValidationFailed
  | HasActiveSchedules
deriving Repr, DecidableEq

/-- Mongoose validation run on create and (with `runValidators`) on update:
required non-empty strings, `name` at most 100 characters, `capacity` at
least 1, and the `ScheduleSchema` pre-validation `start_time < end_time` on
every embedded entry.  (Pairwise non-overlap is NOT validated anywhere.) -/
def validRoom (r : Room) : Bool :=
  r.room_id != "" && r.name != "" && decide (r.name.length ≤ 100) &&
  r.location != "" && decide (1 ≤ r.capacity) &&
  r.schedules.all (fun e => decide (e.start_time < e.end_time))

/-- JavaScript truthiness of an optional string field (`undefined`, `null`
and `""` are falsy). -/
def strTruthy : Option String → Bool
  | none => false
  | some v => v != ""

/-- Body of the PUT /api/management/rooms handler: every field other than
`id` is optional, and `if (schedules) updateData.schedules = schedules`
replaces the room's schedules array wholesale with the payload's. -/
structure RoomUpdatePayload where
  id : Nat
  room_id : Option String := none
  name : Option String := none
  location : Option String := none
  capacity : Option Nat := none
  features : Option (List String) := none
  description : Option String := none
  isActive : Option Bool := none
  schedules : Option (List ScheduleEntry) := none
deriving Repr

/-- The `updateData` construction of the rooms PUT handler (lines 421-430):
truthy strings, `capacity`/`description`/`isActive` tested against
`undefined`, and any (even empty) `features`/`schedules` array accepted. -/
def applyRoomUpdate (p : RoomUpdatePayload) (r : Room) : Room :=
  { r with
    room_id := if strTruthy p.room_id then p.room_id.getD r.room_id else r.room_id
    name := if strTruthy p.name then p.name.getD r.name else r.name
    location := if strTruthy p.location then p.location.getD r.location else r.location
    capacity := p.capacity.getD r.capacity
    features := p.features.getD r.features
    description := p.description.getD r.description
    isActive := p.isActive.getD r.isActive
    schedules := p.schedules.getD r.schedules }

/-- The PUT /api/management/rooms handler (admin room update). -/
def updateRoom (role : String) (p : RoomUpdatePayload)
    (s : SysState) : Except RoomError Room × SysState :=
  if role != "admin" then (.error .Unauthorized, s)
  else
    match s.rooms.find? (fun r => r.mid == p.id) with
    | none => (.error .RoomNotFound, s)
    | some existing =>
      let dupCheck :=
        if strTruthy p.room_id && p.room_id.getD "" != existing.room_id then
          match s.rooms.find? (fun r => r.room_id == p.room_id.getD "") with
          | some clash => !(clash.mid == p.id)
          | none => false
        else false
      if dupCheck then (.error .RoomIdExists, s)
      else
        let updated := applyRoomUpdate p existing
        if !(validRoom updated) then (.error .ValidationFailed, s)
        else
          (.ok updated,
           { s with rooms := s.rooms.map (fun r => if r.mid == p.id then updated else r) })

/-- Body of the POST /api/management/rooms handler; `schedules` defaults to
the empty array but the payload may seed entries directly. -/
structure RoomCreatePayload where
  room_id : String
  name : String
  location : String
  capacity : Nat
  features : List String := []
  description : String := ""
  isActive : Bool := true
  schedules : List ScheduleEntry := []
deriving Repr

/-- The POST /api/management/rooms handler (admin room creation).  The
missing-fields check uses JavaScript truthiness, so `capacity = 0` also
counts as missing. -/
def createRoom (role : String) (p : RoomCreatePayload)
    (s : SysState) : Except RoomError Room × SysState :=
  if role != "admin" then (.error .Unauthorized, s)
  else if p.room_id == "" || p.name == "" || p.location == "" || p.capacity == 0 then
    (.error .MissingFields, s)
  else
    match s.rooms.find? (fun r => r.room_id == p.room_id) with
    | some _ => (.error .RoomIdExists, s)
    | none =>
      let r : Room :=
        { mid := s.nextMid
          room_id := p.room_id
          name := p.name
          location := p.location
          capacity := p.capacity
          isActive := p.isActive
          features := p.features
          description := p.description
          schedules := p.schedules }
      if !(validRoom r) then (.error .ValidationFailed, s)
      else (.ok r, { s with rooms := s.rooms ++ [r], nextMid := s.nextMid + 1 })

/-- The DELETE /api/management/rooms handler: refuses to delete a room whose
schedules array is non-empty. -/
def deleteRoom (role : String) (rid : Nat)
    (s : SysState) : Except RoomError Unit × SysState :=
  if role != "admin" then (.error .Unauthorized, s)
  else
    match s.rooms.find? (fun r => r.mid == rid) with
    | none => (.error .RoomNotFound, s)
    | some existing =>
      if !existing.schedules.isEmpty then (.error .HasActiveSchedules, s)
      else (.ok (), { s with rooms := s.rooms.filter (fun r => !(r.mid == rid)) })

/-- Modelled from the spec: `remove(matching criteria: date, start, end,
holder_user_id)` removes the FIRST entry exactly matching all four fields and
leaves every other entry in place.  It exists only to compare the specified
removal semantics against the source's `$pull` (`ledgerPull`). -/
def removeFirstMatching (date st en : Nat) (uid : String) :
    List ScheduleEntry → List ScheduleEntry
  | [] => []
  | e :: rest =>
    if matchesCriteria date st en uid e then rest
    else e :: removeFirstMatching date st en uid rest

/-! ### The no-overlap invariant and the reachability relation -/

/-- Two ledger entries do not overlap: they are on different calendar dates,
or their half-open time ranges are disjoint. -/
def entriesDisjoint (e1 e2 : ScheduleEntry) : Prop :=
  ¬(dayOf e1.date = dayOf e2.date ∧ e1.start_time < e2.end_time ∧ e2.start_time < e1.end_time)

/-- No two distinct entries of a ledger overlap. -/
def ledgerOk (l : List ScheduleEntry) : Prop := l.Pairwise entriesDisjoint

/-- Every room's ledger satisfies the no-overlap invariant. -/
def RoomsInv (s : SysState) : Prop := ∀ r ∈ s.rooms, ledgerOk r.schedules

/-- Distinctness of the rooms' document ids (Mongo `_id` uniqueness). -/
def midsNodup (s : SysState) : Prop := (s.rooms.map Room.mid).Nodup

/-- One invocation of a booking-collection operation: request creation, admin
decision, or cancellation, with arbitrary arguments. -/
inductive Step : SysState → SysState → Prop where
  | create (uid : String) (rid : Nat) (d st en : Nat) (note : String) (s : SysState) :
      Step s (createBookingRequest uid rid d st en note s).2
  | decision (bid : String) (dec : Decision) (an : Option String) (s : SysState) :
      Step s (decideBooking bid dec an s).2
  | cancel (aid arole bid : String) (s : SysState) :
      Step s (cancelBooking aid arole bid s).2

/-- States reachable by a sequence of booking operations from an initial
system: distinct room ids, every ledger empty, no booking records. -/
inductive Reachable : SysState → Prop where
  | init (s : SysState) (hrooms : ∀ r ∈ s.rooms, r.schedules = [])
      (hmids : midsNodup s) (hbook : s.bookings = []) : Reachable s
  | step {s s' : SysState} (h : Reachable s) (hs : Step s s') : Reachable s'

/-! ### Characterizations of the overlap test -/

theorem overlapCheck_iff {aS aE bS bE : Nat} :
    overlapCheck aS aE bS bE = true ↔
      (bS ≤ aS ∧ aS < bE) ∨ (bS < aE ∧ aE ≤ bE) ∨ (aS ≤ bS ∧ bE ≤ aE) := by
  simp [overlapCheck, or_assoc]

/-- A strict intersection of the half-open ranges always trips the source's
three-disjunct test. -/
theorem overlapCheck_of_strict {aS aE bS bE : Nat}
    (h1 : aS < bE) (h2 : bS < aE) : overlapCheck aS aE bS bE = true := by
  rw [overlapCheck_iff]; omega

/-- For well-formed intervals the three-disjunct test implies a strict
intersection of the half-open ranges. -/
theorem strict_of_overlapCheck {aS aE bS bE : Nat}
    (ha : aS < aE) (hb : bS < bE)
    (h : overlapCheck aS aE bS bE = true) : aS < bE ∧ bS < aE := by
  rw [overlapCheck_iff] at h; omega

theorem scheduleConflictTest_iff {candDate aS aE : Nat} {e : ScheduleEntry} :
    scheduleConflictTest candDate aS aE e = true ↔
      dayOf e.date = dayOf candDate ∧ overlapCheck aS aE e.start_time e.end_time = true := by
  simp [scheduleConflictTest, sameCalendarDate]

/-- The last millisecond of a day lies on that day. -/
theorem dayOf_endOfDayTs (t : Nat) : dayOf (endOfDayTs t) = dayOf t := by
  unfold endOfDayTs dayOf msPerDay
  omega

/-! ### Behaviour of `createBookingRequest` -/

/-- The record a successful creation stores. -/
theorem create_ok_cases {uid : String} {rid : Nat} {d st en : Nat} {nt : String}
    {s : SysState} {b : Booking} {s' : SysState}
    (h : createBookingRequest uid rid d st en nt s = (.ok b, s')) :
    ∃ room, s.rooms.find? (fun r => r.mid == rid) = some room ∧
      room.isActive = true ∧ st < en ∧
      room.schedules.any (scheduleConflictTest d st en) = false ∧
      s.bookings.any (pendingConflictTest rid d st en) = false ∧
      s.bookings.any (fun x => x.booking_id == mkBookingId (s.bookings.length + 1)) = false ∧
      b = { mid := s.nextMid
            booking_id := mkBookingId (s.bookings.length + 1)
            user_id := uid
            room_id := rid
            booking_date := endOfDayTs d
            start_time := st
            end_time := en
            note := nt
            status := .PENDING } ∧
      s' = { s with bookings := s.bookings ++ [b], nextMid := s.nextMid + 1 } := by
  unfold createBookingRequest at h
  split at h
  · simp at h
  next room hfind =>
    refine ⟨room, hfind, ?_⟩
    split at h
    · simp at h
    next hact =>
      split at h
      · simp at h
      next hwf =>
        split at h
        · simp at h
        next hledger =>
          split at h
          · simp at h
          next hpend =>
            split at h
            · simp at h
            next hdup =>
              simp only [Prod.mk.injEq, Except.ok.injEq] at h
              refine ⟨by simpa using hact, by simpa using hwf,
                by simpa using hledger, by simpa using hpend,
                by simpa using hdup, h.1.symm, ?_⟩
              rw [← h.2, ← h.1]

/-- Creation succeeds when the room is found and active, the interval is
well-formed, neither conflict check fires, and the count-derived id does not
collide with a surviving record. -/
theorem create_ok_of_conditions {uid : String} {rid : Nat} {d st en : Nat} {nt : String}
    {s : SysState} {room : Room}
    (hfind : s.rooms.find? (fun r => r.mid == rid) = some room)
    (hact : room.isActive = true) (hwf : st < en)
    (hledger : room.schedules.any (scheduleConflictTest d st en) = false)
    (hpend : s.bookings.any (pendingConflictTest rid d st en) = false)
    (hdup : s.bookings.any
      (fun x => x.booking_id == mkBookingId (s.bookings.length + 1)) = false) :
    createBookingRequest uid rid d st en nt s =
      (.ok { mid := s.nextMid
             booking_id := mkBookingId (s.bookings.length + 1)
             user_id := uid
             room_id := rid
             booking_date := endOfDayTs d
             start_time := st
             end_time := en
             note := nt
             status := .PENDING },
       { s with
          bookings := s.bookings ++
            [{ mid := s.nextMid
               booking_id := mkBookingId (s.bookings.length + 1)
               user_id := uid
               room_id := rid
               booking_date := endOfDayTs d
               start_time := st
               end_time := en
               note := nt
               status := .PENDING }]
          nextMid := s.nextMid + 1 }) := by
  unfold createBookingRequest
  rw [hfind]
  simp [hact, hledger, hpend, hdup, Nat.not_le.mpr hwf]

/-- Creation never changes the rooms collection. -/
theorem create_rooms_eq (uid : String) (rid : Nat) (d st en : Nat) (nt : String)
    (s : SysState) :
    ((createBookingRequest uid rid d st en nt s).2).rooms = s.rooms := by
  unfold createBookingRequest
  repeat' split
  all_goals rfl

/-- On any error the state is returned unchanged. -/
theorem create_error_snd {uid : String} {rid : Nat} {d st en : Nat} {nt : String}
    {s : SysState} {e : BookingError}
    (h : (createBookingRequest uid rid d st en nt s).1 = .error e) :
    (createBookingRequest uid rid d st en nt s).2 = s := by
  unfold createBookingRequest at h ⊢
  repeat' split
  all_goals first | rfl | (simp_all)

/-! ### Behaviour of `decideBooking` -/

theorem decide_notFound {bid : String} {dec : Decision} {an : Option String} {s : SysState}
    (h : s.bookings.find? (fun b => b.booking_id == bid) = none) :
    decideBooking bid dec an s = (.error .BookingNotFound, s) := by
  unfold decideBooking
  rw [h]

theorem decide_invalidState {bid : String} {dec : Decision} {an : Option String}
    {s : SysState} {b : Booking}
    (hf : s.bookings.find? (fun x => x.booking_id == bid) = some b)
    (hs : b.status ≠ .PENDING) :
    decideBooking bid dec an s = (.error .InvalidState, s) := by
  unfold decideBooking
  rw [hf]
  simp [hs]

theorem decide_reject_ok {bid : String} {an : Option String} {s : SysState} {b : Booking}
    (hf : s.bookings.find? (fun x => x.booking_id == bid) = some b)
    (hp : b.status = .PENDING) :
    decideBooking bid .REJECTED an s =
      (.ok (), { s with bookings := setBookingDecision b.mid .REJECTED an s.bookings }) := by
  unfold decideBooking
  rw [hf]
  simp [hp]

/-- A conflict found at decision time aborts the transaction: the whole state
comes back unchanged. -/
theorem decide_accept_conflict {bid : String} {an : Option String}
    {s : SysState} {b : Booking} {room : Room}
    (hf : s.bookings.find? (fun x => x.booking_id == bid) = some b)
    (hp : b.status = .PENDING)
    (hr : s.rooms.find? (fun r => r.mid == b.room_id) = some room)
    (hc : room.schedules.any
        (scheduleConflictTest b.booking_date b.start_time b.end_time) = true) :
    decideBooking bid .ACCEPTED an s = (.error .ScheduleConflict, s) := by
  unfold decideBooking
  rw [hf]
  simp [hp, hr, hc]

/-- Acceptance of a `PENDING` booking whose room id no longer resolves aborts
with `RoomNotFound`. -/
theorem decide_accept_roomMissing {bid : String} {an : Option String}
    {s : SysState} {b : Booking}
    (hf : s.bookings.find? (fun x => x.booking_id == bid) = some b)
    (hp : b.status = .PENDING)
    (hr : s.rooms.find? (fun r => r.mid == b.room_id) = none) :
    decideBooking bid .ACCEPTED an s = (.error .RoomNotFound, s) := by
  unfold decideBooking
  rw [hf]
  simp [hp, hr]

/-- `find?` after a `$push` on the matched room. -/
theorem find?_pushSchedule {rooms : List Room} {rid : Nat} {room : Room} (e : ScheduleEntry)
    (h : rooms.find? (fun r => r.mid == rid) = some room) :
    (pushSchedule rid e rooms).find? (fun r => r.mid == rid) =
      some { room with schedules := room.schedules ++ [e] } := by
  have hpred := List.find?_some (p := fun r : Room => r.mid == rid) h
  have hmid : room.mid = rid := by simpa using hpred
  rw [pushSchedule, List.find?_map]
  have hcomp : ((fun r : Room => r.mid == rid) ∘ fun r : Room =>
      if (r.mid == rid) = true then { r with schedules := r.schedules ++ [e] } else r)
      = fun r : Room => r.mid == rid := by
    funext r
    by_cases hr : r.mid = rid <;> simp [hr]
  rw [hcomp, h]
  simp [hmid]

/-- Successful acceptance: the status write and the ledger push commit
together. -/
theorem decide_accept_ok {bid : String} {an : Option String}
    {s : SysState} {b : Booking} {room : Room}
    (hf : s.bookings.find? (fun x => x.booking_id == bid) = some b)
    (hp : b.status = .PENDING)
    (hr : s.rooms.find? (fun r => r.mid == b.room_id) = some room)
    (hc : room.schedules.any
        (scheduleConflictTest b.booking_date b.start_time b.end_time) = false) :
    decideBooking bid .ACCEPTED an s =
      (.ok (), { s with
                  bookings := setBookingDecision b.mid .ACCEPTED an s.bookings
                  rooms := pushSchedule b.room_id (mkEntry b) s.rooms }) := by
  unfold decideBooking
  rw [hf]
  simp [hp, hr, hc, find?_pushSchedule (mkEntry b) hr]

/-- Either the decision leaves the rooms untouched, or it is a successful
acceptance and the rooms are the pushed collection. -/
theorem decide_rooms_cases (bid : String) (dec : Decision) (an : Option String) (s : SysState) :
    ((decideBooking bid dec an s).2).rooms = s.rooms ∨
    ∃ b room, s.bookings.find? (fun x => x.booking_id == bid) = some b ∧
      b.status = .PENDING ∧ dec = .ACCEPTED ∧
      s.rooms.find? (fun r => r.mid == b.room_id) = some room ∧
      room.schedules.any
        (scheduleConflictTest b.booking_date b.start_time b.end_time) = false ∧
      ((decideBooking bid dec an s).2).rooms = pushSchedule b.room_id (mkEntry b) s.rooms := by
  cases hf : s.bookings.find? (fun x => x.booking_id == bid) with
  | none => rw [decide_notFound hf]; exact Or.inl rfl
  | some b =>
    by_cases hp : b.status = .PENDING
    · cases dec with
      | REJECTED => rw [decide_reject_ok hf hp]; exact Or.inl rfl
      | ACCEPTED =>
        cases hr : s.rooms.find? (fun r => r.mid == b.room_id) with
        | none =>
          left
          unfold decideBooking
          rw [hf]
          simp [hp, hr]
        | some room =>
          cases hc : room.schedules.any
              (scheduleConflictTest b.booking_date b.start_time b.end_time) with
          | true => rw [decide_accept_conflict hf hp hr hc]; exact Or.inl rfl
          | false =>
            right
            exact ⟨b, room, rfl, hp, rfl, hr, hc, by rw [decide_accept_ok hf hp hr hc]⟩
    · rw [decide_invalidState hf hp]; exact Or.inl rfl

/-- On a `PENDING` booking the decision never reports `InvalidState`. -/
theorem decide_pending_not_invalidState {bid : String} {dec : Decision} {an : Option String}
    {s : SysState} {b : Booking}
    (hf : s.bookings.find? (fun x => x.booking_id == bid) = some b)
    (hp : b.status = .PENDING) :
    (decideBooking bid dec an s).1 ≠ .error .InvalidState := by
  cases dec with
  | REJECTED => rw [decide_reject_ok hf hp]; simp
  | ACCEPTED =>
    cases hr : s.rooms.find? (fun r => r.mid == b.room_id) with
    | none => rw [decide_accept_roomMissing hf hp hr]; simp
    | some room =>
      cases hc : room.schedules.any
          (scheduleConflictTest b.booking_date b.start_time b.end_time) with
      | true => rw [decide_accept_conflict hf hp hr hc]; simp
      | false => rw [decide_accept_ok hf hp hr hc]; simp

/-! ### Behaviour of `cancelBooking` -/

theorem cancel_notFound {aid arole bid : String} {s : SysState}
    (h : s.bookings.find? (fun b => b.booking_id == bid) = none) :
    cancelBooking aid arole bid s = (.error .BookingNotFound, s) := by
  unfold cancelBooking
  rw [h]

theorem cancel_forbidden {aid arole bid : String} {s : SysState} {b : Booking}
    (hf : s.bookings.find? (fun x => x.booking_id == bid) = some b)
    (hperm : (arole != "admin" && b.user_id != aid) = true) :
    cancelBooking aid arole bid s = (.error .Forbidden, s) := by
  unfold cancelBooking
  rw [hf]
  simp [hperm]

theorem cancel_ok {aid arole bid : String} {s : SysState} {b : Booking}
    (hf : s.bookings.find? (fun x => x.booking_id == bid) = some b)
    (hperm : (arole != "admin" && b.user_id != aid) = false) :
    cancelBooking aid arole bid s =
      (.ok (), { s with
          rooms := if decide (b.status = .ACCEPTED) then pullSchedules b s.rooms else s.rooms
          bookings := s.bookings.filter (fun x => !(x.mid == b.mid)) }) := by
  unfold cancelBooking
  rw [hf]
  simp [hperm]

theorem cancel_rooms_cases (aid arole bid : String) (s : SysState) :
    ((cancelBooking aid arole bid s).2).rooms = s.rooms ∨
    ∃ b, ((cancelBooking aid arole bid s).2).rooms = pullSchedules b s.rooms := by
  cases hf : s.bookings.find? (fun b => b.booking_id == bid) with
  | none => rw [cancel_notFound hf]; exact Or.inl rfl
  | some b =>
    by_cases hperm : (arole != "admin" && b.user_id != aid) = true
    · rw [cancel_forbidden hf hperm]
      exact Or.inl rfl
    · rw [cancel_ok hf (by simpa using hperm)]
      by_cases hacc : b.status = .ACCEPTED
      · exact Or.inr ⟨b, by simp [hacc]⟩
      · exact Or.inl (by simp [hacc])

/-! ### Preservation of the no-overlap invariant -/

theorem pushSchedule_map_mid (rid : Nat) (e : ScheduleEntry) (rooms : List Room) :
    (pushSchedule rid e rooms).map Room.mid = rooms.map Room.mid := by
  rw [pushSchedule, List.map_map]
  apply List.map_congr_left
  intro r _
  by_cases h : r.mid = rid <;> simp [h]

theorem pullSchedules_map_mid (b : Booking) (rooms : List Room) :
    (pullSchedules b rooms).map Room.mid = rooms.map Room.mid := by
  rw [pullSchedules, List.map_map]
  apply List.map_congr_left
  intro r _
  by_cases h : r.mid = b.room_id <;> simp [h]

/-- Appending an entry that passes the decision-time conflict re-check keeps
the ledger pairwise non-overlapping. -/
theorem ledgerOk_push {l : List ScheduleEntry} {b : Booking}
    (hok : ledgerOk l)
    (hc : l.any (scheduleConflictTest b.booking_date b.start_time b.end_time) = false) :
    ledgerOk (l ++ [mkEntry b]) := by
  rw [ledgerOk, List.pairwise_append]
  refine ⟨hok, List.pairwise_singleton _ _, ?_⟩
  intro e he e' he'
  simp only [List.mem_singleton] at he'
  subst he'
  rintro ⟨hd, h1, h2⟩
  have hconf : scheduleConflictTest b.booking_date b.start_time b.end_time e = true := by
    rw [scheduleConflictTest_iff]
    refine ⟨by simpa [mkEntry] using hd, ?_⟩
    exact overlapCheck_of_strict (by simpa [mkEntry] using h2) (by simpa [mkEntry] using h1)
  rw [List.any_eq_false] at hc
  exact absurd hconf (by simpa using hc e he)

/-- Two members of a rooms collection with distinct ids that both match the
searched id coincide with the found room. -/
theorem matching_mem_eq_found {rooms : List Room} {rid : Nat} {room r : Room}
    (hnd : (rooms.map Room.mid).Nodup)
    (hf : rooms.find? (fun x => x.mid == rid) = some room)
    (hr : r ∈ rooms) (hmid : r.mid = rid) : r = room := by
  have hroommem : room ∈ rooms := List.mem_of_find?_eq_some hf
  have hpred := List.find?_some (p := fun x : Room => x.mid == rid) hf
  have hpmid : room.mid = rid := by simpa using hpred
  exact List.inj_on_of_nodup_map hnd hr hroommem (by rw [hmid, hpmid])

theorem pushSchedule_inv {s : SysState} {b : Booking} {room : Room}
    (hnd : midsNodup s) (hinv : RoomsInv s)
    (hr : s.rooms.find? (fun r => r.mid == b.room_id) = some room)
    (hc : room.schedules.any
        (scheduleConflictTest b.booking_date b.start_time b.end_time) = false) :
    ∀ r ∈ pushSchedule b.room_id (mkEntry b) s.rooms, ledgerOk r.schedules := by
  intro r hrmem
  rw [pushSchedule, List.mem_map] at hrmem
  obtain ⟨r0, hr0mem, hr0eq⟩ := hrmem
  by_cases hmid : r0.mid = b.room_id
  · have hr0 : r0 = room := matching_mem_eq_found hnd hr hr0mem hmid
    subst hr0
    rw [if_pos (by simpa using hmid)] at hr0eq
    rw [← hr0eq]
    exact ledgerOk_push (hinv r0 hr0mem) hc
  · rw [if_neg (by simpa using hmid)] at hr0eq
    rw [← hr0eq]
    exact hinv r0 hr0mem

theorem pullSchedules_inv {s : SysState} {b : Booking} (hinv : RoomsInv s) :
    ∀ r ∈ pullSchedules b s.rooms, ledgerOk r.schedules := by
  intro r hrmem
  rw [pullSchedules, List.mem_map] at hrmem
  obtain ⟨r0, hr0mem, hr0eq⟩ := hrmem
  by_cases hmid : r0.mid = b.room_id
  · rw [if_pos (by simpa using hmid)] at hr0eq
    rw [← hr0eq]
    exact List.Pairwise.filter _ (hinv r0 hr0mem)
  · rw [if_neg (by simpa using hmid)] at hr0eq
    rw [← hr0eq]
    exact hinv r0 hr0mem

/-- Each booking operation preserves distinctness of room ids and the
no-overlap invariant of every ledger. -/
theorem step_preserves_inv {s s' : SysState} (hnd : midsNodup s) (hinv : RoomsInv s)
    (hs : Step s s') : midsNodup s' ∧ RoomsInv s' := by
  cases hs with
  | create uid rid d st en nt =>
    constructor
    · unfold midsNodup
      rw [create_rooms_eq]
      exact hnd
    · intro r hr
      rw [create_rooms_eq] at hr
      exact hinv r hr
  | decision bid dec an =>
    rcases decide_rooms_cases bid dec an s with h | ⟨b, room, hf, hp, hdec, hr, hc, h⟩
    · constructor
      · unfold midsNodup
        rw [h]
        exact hnd
      · intro r hrm
        rw [h] at hrm
        exact hinv r hrm
    · constructor
      · unfold midsNodup
        rw [h, pushSchedule_map_mid]
        exact hnd
      · intro r hrm
        rw [h] at hrm
        exact pushSchedule_inv hnd hinv hr hc r hrm
  | cancel aid arole bid =>
    rcases cancel_rooms_cases aid arole bid s with h | ⟨b, h⟩
    · constructor
      · unfold midsNodup
        rw [h]
        exact hnd
      · intro r hrm
        rw [h] at hrm
        exact hinv r hrm
    · constructor
      · unfold midsNodup
        rw [h, pullSchedules_map_mid]
        exact hnd
      · intro r hrm
        rw [h] at hrm
        exact pullSchedules_inv hinv r hrm

theorem reachable_inv {s : SysState} (h : Reachable s) : midsNodup s ∧ RoomsInv s := by
  induction h with
  | init s hrooms hmids hbook =>
    refine ⟨hmids, fun r hr => ?_⟩
    rw [ledgerOk, hrooms r hr]
    exact List.Pairwise.nil
  | step h hs ih => exact step_preserves_inv ih.1 ih.2 hs

/-! ### Support for the create/accept/cancel round trip -/

theorem find?_append_fresh {l : List Booking} {b : Booking}
    (h : ∀ x ∈ l, x.booking_id ≠ b.booking_id) :
    (l ++ [b]).find? (fun x => x.booking_id == b.booking_id) = some b := by
  rw [List.find?_append]
  have hnone : l.find? (fun x => x.booking_id == b.booking_id) = none := by
    rw [List.find?_eq_none]
    intro x hx
    simp [h x hx]
  rw [hnone]
  simp

theorem setBookingDecision_append_fresh {l : List Booking} {b : Booking}
    {st : BookingStatus} {an : Option String}
    (h : ∀ x ∈ l, x.mid ≠ b.mid) :
    setBookingDecision b.mid st an (l ++ [b]) =
      l ++ [{ b with status := st, note := applyAdminNote b.note an }] := by
  rw [setBookingDecision, List.map_append]
  congr 1
  · refine (List.map_congr_left ?_).trans (List.map_id' l)
    intro x hx
    exact if_neg (by simp [h x hx])
  · simp

theorem filter_mids_append_fresh {l : List Booking} {b b' : Booking}
    (hmid : b'.mid = b.mid)
    (h : ∀ x ∈ l, x.mid ≠ b.mid) :
    (l ++ [b']).filter (fun x => !(x.mid == b.mid)) = l := by
  rw [List.filter_append]
  have h1 : l.filter (fun x => !(x.mid == b.mid)) = l :=
    List.filter_eq_self.mpr (fun x hx => by simp [h x hx])
  have h2 : [b'].filter (fun x => !(x.mid == b.mid)) = [] := by
    simp [hmid]
  rw [h1, h2, List.append_nil]

/-- An entry matching all four removal criteria of a well-formed booking
trips the conflict test for that booking's interval. -/
theorem matching_entry_conflicts {b : Booking} {e : ScheduleEntry}
    (hwf : b.start_time < b.end_time)
    (hm : matchesCriteria b.booking_date b.start_time b.end_time b.user_id e = true) :
    scheduleConflictTest b.booking_date b.start_time b.end_time e = true := by
  simp only [matchesCriteria, Bool.and_eq_true, beq_iff_eq] at hm
  obtain ⟨⟨⟨hd, hs⟩, he⟩, hu⟩ := hm
  rw [scheduleConflictTest_iff]
  refine ⟨by rw [hd], ?_⟩
  rw [hs, he]
  exact overlapCheck_of_strict hwf hwf

/-- The conflict test is insensitive to moving the candidate date within its
day (the stored end-of-day date behaves like the submitted one). -/
theorem scheduleConflictTest_endOfDay (d aS aE : Nat) (e : ScheduleEntry) :
    scheduleConflictTest (endOfDayTs d) aS aE e = scheduleConflictTest d aS aE e := by
  simp [scheduleConflictTest, sameCalendarDate, dayOf_endOfDayTs]

/-- Pulling the entry just pushed restores the rooms collection, provided no
pre-existing entry of the target room matches the removal criteria. -/
theorem pull_push_restore {rooms : List Room} {rid : Nat} {room : Room}
    (b : Booking) (e : ScheduleEntry)
    (hnd : (rooms.map Room.mid).Nodup)
    (hr : rooms.find? (fun r => r.mid == rid) = some room)
    (hbrid : b.room_id = rid)
    (hmatch : matchesCriteria b.booking_date b.start_time b.end_time b.user_id e = true)
    (hnomatch : ∀ x ∈ room.schedules,
        matchesCriteria b.booking_date b.start_time b.end_time b.user_id x = false) :
    pullSchedules b (pushSchedule rid e rooms) = rooms := by
  rw [pullSchedules, pushSchedule, List.map_map]
  refine (List.map_congr_left ?_).trans (List.map_id' rooms)
  intro r hrm
  simp only [Function.comp_apply]
  by_cases hx : r.mid = rid
  · have hreq : r = room := matching_mem_eq_found hnd hr hrm hx
    have hfilter :
        ledgerPull b.booking_date b.start_time b.end_time b.user_id (r.schedules ++ [e]) =
          r.schedules := by
      rw [ledgerPull, List.filter_append]
      have h1 : r.schedules.filter
          (fun x => !(matchesCriteria b.booking_date b.start_time b.end_time b.user_id x)) =
          r.schedules :=
        List.filter_eq_self.mpr (fun x hxmem => by
          simp [hnomatch x (by rw [← hreq]; exact hxmem)])
      have h2 : [e].filter
          (fun x => !(matchesCriteria b.booking_date b.start_time b.end_time b.user_id x)) =
          [] := by simp [hmatch]
      rw [h1, h2, List.append_nil]
    simp [hx, hbrid, ledgerPull] at hfilter ⊢
    simp [hfilter]
    rw [← hx]
  · simp [hx, hbrid]

/-! ### Claim theorems -/

/-- C3: for intervals with start strictly before end, the conflict test used
by create and by decide(ACCEPTED) returns true iff the two intervals are on
the same calendar date and `start_a < end_b` and `start_b < end_a`; in
particular back-to-back intervals do not conflict while properly
intersecting ones do. -/
theorem claimC3_conflict_test (cd cs ce : Nat) (e : ScheduleEntry)
    (hcand : cs < ce) (hentry : e.start_time < e.end_time) :
    scheduleConflictTest cd cs ce e = true ↔
      (dayOf e.date = dayOf cd ∧ cs < e.end_time ∧ e.start_time < ce) := by
  rw [scheduleConflictTest_iff]
  constructor
  · rintro ⟨hd, hov⟩
    exact ⟨hd, strict_of_overlapCheck hcand hentry hov⟩
  · rintro ⟨hd, h1, h2⟩
    exact ⟨hd, overlapCheck_of_strict h1 h2⟩

/-- Witness for C3 at the boundary examples: on one calendar day,
[09:00,10:00) does not conflict with [10:00,11:00) but does conflict with
[09:59,10:01). -/
theorem claimC3_witness :
    scheduleConflictTest 1641600000000 1641632400000 1641636000000
      { date := 1641600000000, start_time := 1641636000000, end_time := 1641639600000,
        user_id := "u2", note := "" } = false ∧
    scheduleConflictTest 1641600000000 1641632400000 1641636000000
      { date := 1641600000000, start_time := 1641635940000, end_time := 1641636060000,
        user_id := "u2", note := "" } = true := by
  constructor
  · have h := claimC3_conflict_test 1641600000000 1641632400000 1641636000000
      { date := 1641600000000, start_time := 1641636000000, end_time := 1641639600000,
        user_id := "u2", note := "" } (by decide) (by decide)
    rw [Bool.eq_false_iff]
    intro ht
    exact absurd (h.mp ht).2.2 (by decide)
  · exact (claimC3_conflict_test 1641600000000 1641632400000 1641636000000
      { date := 1641600000000, start_time := 1641635940000, end_time := 1641636060000,
        user_id := "u2", note := "" } (by decide) (by decide)).mpr
      ⟨by decide, by decide, by decide⟩

/-- C9: every successful creation stores the id `"BK"` followed by
`String(count + 1).padStart(5, '0')` where `count` is the number of existing
booking records; in an empty store the first booking gets `"BK00001"`. -/
theorem claimC9_booking_id {uid : String} {rid : Nat} {d st en : Nat} {nt : String}
    {s : SysState} {b : Booking} {s' : SysState}
    (h : createBookingRequest uid rid d st en nt s = (.ok b, s')) :
    b.booking_id = "BK" ++ padStart5 (toString (s.bookings.length + 1)) ∧
    (s.bookings = [] → b.booking_id = "BK00001") := by
  obtain ⟨room, -, -, -, -, -, -, hb, -⟩ := create_ok_cases h
  subst hb
  constructor
  · rfl
  · intro hnil
    simp only [hnil]
    decide

/-- Witness for C9: creating in an empty store yields id "BK00001". -/
theorem claimC9_witness :
    ({ mid := 0, booking_id := "BK00001", user_id := "u1", room_id := 1,
       booking_date := 86399999, start_time := 32400000, end_time := 36000000, note := "",
       status := .PENDING } : Booking).booking_id =
      "BK" ++ padStart5 (toString (([] : List Booking).length + 1)) ∧
    (([] : List Booking) = [] →
      ({ mid := 0, booking_id := "BK00001", user_id := "u1", room_id := 1,
         booking_date := 86399999, start_time := 32400000, end_time := 36000000, note := "",
         status := .PENDING } : Booking).booking_id = "BK00001") := by
  have h : createBookingRequest "u1" 1 0 32400000 36000000 ""
      { rooms := [{ mid := 1, room_id := "A101", name := "Alpha", location := "A",
                    capacity := 20, isActive := true, features := [], description := "",
                    schedules := [] }],
        bookings := [], nextMid := 0 } =
      (.ok { mid := 0, booking_id := "BK00001", user_id := "u1", room_id := 1,
             booking_date := 86399999, start_time := 32400000, end_time := 36000000,
             note := "", status := .PENDING },
       { rooms := [{ mid := 1, room_id := "A101", name := "Alpha", location := "A",
                     capacity := 20, isActive := true, features := [], description := "",
                     schedules := [] }],
         bookings := [{ mid := 0, booking_id := "BK00001", user_id := "u1", room_id := 1,
                        booking_date := 86399999, start_time := 32400000,
                        end_time := 36000000, note := "", status := .PENDING }],
         nextMid := 1 }) := by rfl
  exact claimC9_booking_id h

/-- C10: the stored `booking_date` of every successful creation is the
end-of-day timestamp 23:59:59.999 of the submitted date's calendar day —
not the submitted value, unless that value already was the day's last
millisecond — because the parsed date is mutated in place while building the
pending-conflict query; the ledger entry built on acceptance carries exactly
that stored value. -/
theorem claimC10_end_of_day {uid : String} {rid : Nat} {d st en : Nat} {nt : String}
    {s : SysState} {b : Booking} {s' : SysState}
    (h : createBookingRequest uid rid d st en nt s = (.ok b, s')) :
    b.booking_date = endOfDayTs d ∧
    b.booking_date = d / msPerDay * msPerDay + 86399999 ∧
    (d % msPerDay ≠ 86399999 → b.booking_date ≠ d) ∧
    (mkEntry b).date = b.booking_date := by
  obtain ⟨room, -, -, -, -, -, -, hb, -⟩ := create_ok_cases h
  have h1 : b.booking_date = endOfDayTs d := by rw [hb]
  refine ⟨h1, ?_, ?_, rfl⟩
  · rw [h1]
    unfold endOfDayTs dayOf msPerDay
    omega
  · intro hne
    rw [h1]
    unfold endOfDayTs dayOf msPerDay at *
    omega

/-- Witness for C10: submitting midnight of a day stores 23:59:59.999 of that
day instead. -/
theorem claimC10_witness :
    ({ mid := 0, booking_id := "BK00001", user_id := "u1", room_id := 1,
       booking_date := 86399999, start_time := 32400000, end_time := 36000000, note := "",
       status := .PENDING } : Booking).booking_date = endOfDayTs 0 ∧
    ({ mid := 0, booking_id := "BK00001", user_id := "u1", room_id := 1,
       booking_date := 86399999, start_time := 32400000, end_time := 36000000, note := "",
       status := .PENDING } : Booking).booking_date = 0 / msPerDay * msPerDay + 86399999 ∧
    ((0 : Nat) % msPerDay ≠ 86399999 →
      ({ mid := 0, booking_id := "BK00001", user_id := "u1", room_id := 1,
         booking_date := 86399999, start_time := 32400000, end_time := 36000000, note := "",
         status := .PENDING } : Booking).booking_date ≠ 0) ∧
    (mkEntry
      ({ mid := 0, booking_id := "BK00001", user_id := "u1", room_id := 1,
         booking_date := 86399999, start_time := 32400000, end_time := 36000000, note := "",
         status := .PENDING } : Booking)).date =
      ({ mid := 0, booking_id := "BK00001", user_id := "u1", room_id := 1,
         booking_date := 86399999, start_time := 32400000, end_time := 36000000, note := "",
         status := .PENDING } : Booking).booking_date := by
  have h : createBookingRequest "u1" 1 0 32400000 36000000 ""
      { rooms := [{ mid := 1, room_id := "A101", name := "Alpha", location := "A",
                    capacity := 20, isActive := true, features := [], description := "",
                    schedules := [] }],
        bookings := [], nextMid := 0 } =
      (.ok { mid := 0, booking_id := "BK00001", user_id := "u1", room_id := 1,
             booking_date := 86399999, start_time := 32400000, end_time := 36000000,
             note := "", status := .PENDING },
       { rooms := [{ mid := 1, room_id := "A101", name := "Alpha", location := "A",
                     capacity := 20, isActive := true, features := [], description := "",
                     schedules := [] }],
         bookings := [{ mid := 0, booking_id := "BK00001", user_id := "u1", room_id := 1,
                        booking_date := 86399999, start_time := 32400000,
                        end_time := 36000000, note := "", status := .PENDING }],
         nextMid := 1 }) := by rfl
  exact claimC10_end_of_day h

/-- C6: the decision fails with `BookingNotFound` when no booking carries the
given id, fails with `InvalidState` exactly when the found booking is not
`PENDING`, and both failures return the state unchanged — so `ACCEPTED` and
`REJECTED` are terminal states under decide. -/
theorem claimC6_decide_guards (bid : String) (dec : Decision) (an : Option String)
    (s : SysState) :
    (s.bookings.find? (fun x => x.booking_id == bid) = none →
      decideBooking bid dec an s = (.error .BookingNotFound, s)) ∧
    (∀ b, s.bookings.find? (fun x => x.booking_id == bid) = some b →
      ((decideBooking bid dec an s).1 = .error .InvalidState ↔ b.status ≠ .PENDING)) ∧
    (∀ b, s.bookings.find? (fun x => x.booking_id == bid) = some b →
      b.status ≠ .PENDING → decideBooking bid dec an s = (.error .InvalidState, s)) := by
  refine ⟨fun h => decide_notFound h, fun b hf => ?_, fun b hf hs => decide_invalidState hf hs⟩
  constructor
  · intro h
    by_contra hns
    exact decide_pending_not_invalidState hf hns h
  · intro hs
    rw [decide_invalidState hf hs]

/-- Witness for C6: deciding an already-REJECTED booking fails with
`InvalidState` and leaves the state unchanged. -/
theorem claimC6_witness :
    decideBooking "BK00001" .ACCEPTED none
      { rooms := [],
        bookings := [{ mid := 0, booking_id := "BK00001", user_id := "u1", room_id := 1,
                       booking_date := 86399999, start_time := 32400000,
                       end_time := 36000000, note := "", status := .REJECTED }],
        nextMid := 5 } =
      (.error .InvalidState,
       { rooms := [],
         bookings := [{ mid := 0, booking_id := "BK00001", user_id := "u1", room_id := 1,
                        booking_date := 86399999, start_time := 32400000,
                        end_time := 36000000, note := "", status := .REJECTED }],
         nextMid := 5 }) :=
  (claimC6_decide_guards "BK00001" .ACCEPTED none
      { rooms := [],
        bookings := [{ mid := 0, booking_id := "BK00001", user_id := "u1", room_id := 1,
                       booking_date := 86399999, start_time := 32400000,
                       end_time := 36000000, note := "", status := .REJECTED }],
        nextMid := 5 }).2.2
    { mid := 0, booking_id := "BK00001", user_id := "u1", room_id := 1,
      booking_date := 86399999, start_time := 32400000, end_time := 36000000,
      note := "", status := .REJECTED }
    (by decide) (by decide)

/-- C2: accepting a `PENDING` booking whose interval now conflicts with an
entry of the room's ledger fails with `ScheduleConflict` and returns the
pre-transaction state whole: the booking is still `PENDING` and the room's
ledger gained no entry. -/
theorem claimC2_accept_conflict_aborts {bid : String} {an : Option String}
    {s : SysState} {b : Booking} {room : Room}
    (hf : s.bookings.find? (fun x => x.booking_id == bid) = some b)
    (hp : b.status = .PENDING)
    (hr : s.rooms.find? (fun r => r.mid == b.room_id) = some room)
    (hc : room.schedules.any
        (scheduleConflictTest b.booking_date b.start_time b.end_time) = true) :
    decideBooking bid .ACCEPTED an s = (.error .ScheduleConflict, s) ∧
    ((decideBooking bid .ACCEPTED an s).2).bookings = s.bookings ∧
    ((decideBooking bid .ACCEPTED an s).2).rooms = s.rooms := by
  have h := @decide_accept_conflict bid an s b room hf hp hr hc
  exact ⟨h, by rw [h], by rw [h]⟩

/-- Witness for C2: a booking for 09:00-10:00 whose room meanwhile holds a
09:30-09:45 ledger entry on the same day is rejected with `ScheduleConflict`
and the state is unchanged. -/
theorem claimC2_witness :
    decideBooking "BK00001" .ACCEPTED none
      { rooms := [{ mid := 1, room_id := "A101", name := "Alpha", location := "A",
                    capacity := 20, isActive := true, features := [], description := "",
                    schedules := [{ date := 0, start_time := 34200000, end_time := 35100000,
                                    user_id := "u9", note := "" }] }],
        bookings := [{ mid := 0, booking_id := "BK00001", user_id := "u1", room_id := 1,
                       booking_date := 86399999, start_time := 32400000,
                       end_time := 36000000, note := "", status := .PENDING }],
        nextMid := 5 } =
      (.error .ScheduleConflict,
       { rooms := [{ mid := 1, room_id := "A101", name := "Alpha", location := "A",
                     capacity := 20, isActive := true, features := [], description := "",
                     schedules := [{ date := 0, start_time := 34200000, end_time := 35100000,
                                     user_id := "u9", note := "" }] }],
         bookings := [{ mid := 0, booking_id := "BK00001", user_id := "u1", room_id := 1,
                        booking_date := 86399999, start_time := 32400000,
                        end_time := 36000000, note := "", status := .PENDING }],
         nextMid := 5 }) :=
  (@claimC2_accept_conflict_aborts "BK00001" none
      { rooms := [{ mid := 1, room_id := "A101", name := "Alpha", location := "A",
                    capacity := 20, isActive := true, features := [], description := "",
                    schedules := [{ date := 0, start_time := 34200000, end_time := 35100000,
                                    user_id := "u9", note := "" }] }],
        bookings := [{ mid := 0, booking_id := "BK00001", user_id := "u1", room_id := 1,
                       booking_date := 86399999, start_time := 32400000,
                       end_time := 36000000, note := "", status := .PENDING }],
        nextMid := 5 }
      { mid := 0, booking_id := "BK00001", user_id := "u1", room_id := 1,
        booking_date := 86399999, start_time := 32400000, end_time := 36000000,
        note := "", status := .PENDING }
      { mid := 1, room_id := "A101", name := "Alpha", location := "A",
        capacity := 20, isActive := true, features := [], description := "",
        schedules := [{ date := 0, start_time := 34200000, end_time := 35100000,
                        user_id := "u9", note := "" }] }
      (by decide) (by decide) (by decide) (by decide)).1

/-- C4 counterexample: a delete-then-create collision state.  The store holds
a surviving record "BK00002" (its predecessor was cancelled, so the count is
back to 1), a different active room with an empty ledger is requested, and
every admission condition of the claim holds — yet the count-derived id
"BK00002" collides with the surviving record's unique `booking_id`, the
insert fails with the duplicate-key error, and no record is stored. -/
theorem claimC4_counterexample :
    (({ rooms := [{ mid := 1, room_id := "A101", name := "Alpha", location := "A",
                    capacity := 20, isActive := true, features := [], description := "",
                    schedules := [] },
                  { mid := 2, room_id := "A102", name := "Beta", location := "A",
                    capacity := 8, isActive := true, features := [], description := "",
                    schedules := [] }],
        bookings := [{ mid := 1, booking_id := "BK00002", user_id := "u9", room_id := 2,
                       booking_date := 86399999, start_time := 32400000,
                       end_time := 36000000, note := "", status := .PENDING }],
        nextMid := 3 } : SysState).rooms.find? (fun r => r.mid == 1) =
        some { mid := 1, room_id := "A101", name := "Alpha", location := "A",
               capacity := 20, isActive := true, features := [], description := "",
               schedules := [] } ∧
      ({ mid := 1, room_id := "A101", name := "Alpha", location := "A",
         capacity := 20, isActive := true, features := [], description := "",
         schedules := [] } : Room).isActive = true ∧
      (32400000 : Nat) < 36000000 ∧
      ({ mid := 1, room_id := "A101", name := "Alpha", location := "A",
         capacity := 20, isActive := true, features := [], description := "",
         schedules := [] } : Room).schedules.any
        (scheduleConflictTest 0 32400000 36000000) = false ∧
      ([({ mid := 1, booking_id := "BK00002", user_id := "u9", room_id := 2,
           booking_date := 86399999, start_time := 32400000, end_time := 36000000,
           note := "", status := .PENDING } : Booking)]).any
        (pendingConflictTest 1 0 32400000 36000000) = false) ∧
    createBookingRequest "u1" 1 0 32400000 36000000 ""
      { rooms := [{ mid := 1, room_id := "A101", name := "Alpha", location := "A",
                    capacity := 20, isActive := true, features := [], description := "",
                    schedules := [] },
                  { mid := 2, room_id := "A102", name := "Beta", location := "A",
                    capacity := 8, isActive := true, features := [], description := "",
                    schedules := [] }],
        bookings := [{ mid := 1, booking_id := "BK00002", user_id := "u9", room_id := 2,
                       booking_date := 86399999, start_time := 32400000,
                       end_time := 36000000, note := "", status := .PENDING }],
        nextMid := 3 } =
      (.error .DuplicateKey,
       { rooms := [{ mid := 1, room_id := "A101", name := "Alpha", location := "A",
                     capacity := 20, isActive := true, features := [], description := "",
                     schedules := [] },
                   { mid := 2, room_id := "A102", name := "Beta", location := "A",
                     capacity := 8, isActive := true, features := [], description := "",
                     schedules := [] }],
         bookings := [{ mid := 1, booking_id := "BK00002", user_id := "u9", room_id := 2,
                        booking_date := 86399999, start_time := 32400000,
                        end_time := 36000000, note := "", status := .PENDING }],
         nextMid := 3 }) :=
  ⟨by decide, by rfl⟩

/-- C4 (amended): a `PENDING` record is stored iff the room exists, is
active, the interval is well-formed, the candidate overlaps neither the
room's ledger nor any other `PENDING`/`ACCEPTED` booking for the room
(`REJECTED` requests never block), and the count-derived id does not collide
with a surviving record's unique `booking_id`; otherwise the handler fails
with the corresponding error — the two conflict kinds distinguished, the
collision surfaced as the duplicate-key storage error — and leaves the state
unchanged. -/
theorem claimC4_create_spec (uid : String) (rid : Nat) (d st en : Nat) (nt : String)
    (s : SysState) :
    ((∃ b s', createBookingRequest uid rid d st en nt s = (.ok b, s') ∧
        s'.bookings = s.bookings ++ [b] ∧ b.status = .PENDING) ↔
      (∃ room, s.rooms.find? (fun r => r.mid == rid) = some room ∧ room.isActive = true ∧
        st < en ∧ room.schedules.any (scheduleConflictTest d st en) = false ∧
        s.bookings.any (pendingConflictTest rid d st en) = false ∧
        s.bookings.any
          (fun x => x.booking_id == mkBookingId (s.bookings.length + 1)) = false)) ∧
    (s.rooms.find? (fun r => r.mid == rid) = none →
      createBookingRequest uid rid d st en nt s = (.error .RoomNotFound, s)) ∧
    (∀ room, s.rooms.find? (fun r => r.mid == rid) = some room → room.isActive = false →
      createBookingRequest uid rid d st en nt s = (.error .RoomInactive, s)) ∧
    (∀ room, s.rooms.find? (fun r => r.mid == rid) = some room → room.isActive = true →
      en ≤ st →
      createBookingRequest uid rid d st en nt s = (.error .InvalidInterval, s)) ∧
    (∀ room, s.rooms.find? (fun r => r.mid == rid) = some room → room.isActive = true →
      st < en → room.schedules.any (scheduleConflictTest d st en) = true →
      createBookingRequest uid rid d st en nt s = (.error .ScheduleConflict, s)) ∧
    (∀ room, s.rooms.find? (fun r => r.mid == rid) = some room → room.isActive = true →
      st < en → room.schedules.any (scheduleConflictTest d st en) = false →
      s.bookings.any (pendingConflictTest rid d st en) = true →
      createBookingRequest uid rid d st en nt s = (.error .PendingConflict, s)) ∧
    (∀ room, s.rooms.find? (fun r => r.mid == rid) = some room → room.isActive = true →
      st < en → room.schedules.any (scheduleConflictTest d st en) = false →
      s.bookings.any (pendingConflictTest rid d st en) = false →
      s.bookings.any (fun x => x.booking_id == mkBookingId (s.bookings.length + 1)) = true →
      createBookingRequest uid rid d st en nt s = (.error .DuplicateKey, s)) ∧
    (∀ b ∈ s.bookings, b.status = .REJECTED → pendingConflictTest rid d st en b = false) := by
  refine ⟨⟨?_, ?_⟩, ?_, ?_, ?_, ?_, ?_, ?_, ?_⟩
  · rintro ⟨b, s', h, -, -⟩
    obtain ⟨room, hfind, hact, hwf, hledger, hpend, hdup, -, -⟩ := create_ok_cases h
    exact ⟨room, hfind, hact, hwf, hledger, hpend, hdup⟩
  · rintro ⟨room, hfind, hact, hwf, hledger, hpend, hdup⟩
    rw [create_ok_of_conditions hfind hact hwf hledger hpend hdup]
    exact ⟨_, _, rfl, rfl, rfl⟩
  · intro hfind
    unfold createBookingRequest
    rw [hfind]
  · intro room hfind hina
    unfold createBookingRequest
    rw [hfind]
    simp [hina]
  · intro room hfind hact hle
    unfold createBookingRequest
    rw [hfind]
    simp [hact, hle]
  · intro room hfind hact hwf hledger
    unfold createBookingRequest
    rw [hfind]
    simp [hact, Nat.not_le.mpr hwf, hledger]
  · intro room hfind hact hwf hledger hpend
    unfold createBookingRequest
    rw [hfind]
    simp [hact, Nat.not_le.mpr hwf, hledger, hpend]
  · intro room hfind hact hwf hledger hpend hdup
    unfold createBookingRequest
    rw [hfind]
    simp [hact, Nat.not_le.mpr hwf, hledger, hpend, hdup]
  · intro b hb hrej
    simp [pendingConflictTest, hrej]

/-- Witness for C4 (scenario A shape): an active room with an empty ledger
and no other bookings admits a 09:00-10:00 request as a PENDING record. -/
theorem claimC4_witness :
    ∃ b s', createBookingRequest "u1" 1 0 32400000 36000000 ""
        { rooms := [{ mid := 1, room_id := "A101", name := "Alpha", location := "A",
                      capacity := 20, isActive := true, features := [], description := "",
                      schedules := [] }],
          bookings := [], nextMid := 0 } = (.ok b, s') ∧
      s'.bookings =
        ({ rooms := [{ mid := 1, room_id := "A101", name := "Alpha", location := "A",
                       capacity := 20, isActive := true, features := [], description := "",
                       schedules := [] }],
           bookings := [], nextMid := 0 } : SysState).bookings ++ [b] ∧
      b.status = .PENDING :=
  (claimC4_create_spec "u1" 1 0 32400000 36000000 ""
      { rooms := [{ mid := 1, room_id := "A101", name := "Alpha", location := "A",
                    capacity := 20, isActive := true, features := [], description := "",
                    schedules := [] }],
        bookings := [], nextMid := 0 }).1.mpr
    ⟨{ mid := 1, room_id := "A101", name := "Alpha", location := "A",
       capacity := 20, isActive := true, features := [], description := "",
       schedules := [] },
     by decide, by decide, by decide, by decide, by decide, by decide⟩

/-- C8 counterexample: on a ledger holding two identical entries matching the
removal criteria, the source's `$pull` removes both of them, while removing
only the first matching entry — what the claim states — would leave the
second in place. -/
theorem claimC8_counterexample :
    ledgerPull 0 32400000 36000000 "u1"
      [{ date := 0, start_time := 32400000, end_time := 36000000, user_id := "u1", note := "" },
       { date := 0, start_time := 32400000, end_time := 36000000, user_id := "u1", note := "" }]
      = [] ∧
    removeFirstMatching 0 32400000 36000000 "u1"
      [{ date := 0, start_time := 32400000, end_time := 36000000, user_id := "u1", note := "" },
       { date := 0, start_time := 32400000, end_time := 36000000, user_id := "u1", note := "" }]
      = [{ date := 0, start_time := 32400000, end_time := 36000000,
           user_id := "u1", note := "" }] ∧
    ([] : List ScheduleEntry) ≠
      [{ date := 0, start_time := 32400000, end_time := 36000000,
         user_id := "u1", note := "" }] :=
  ⟨by decide, by decide, by decide⟩

/-- C8 (amended): the removal performed during cancellation deletes every
entry matching all four fields (under the no-overlap invariant at most one
matching entry can exist, so this coincides with removing the first match),
keeps every non-matching entry in place and in order, and is a no-op — not
an error — when no entry matches. -/
theorem claimC8_pull_spec (date st en : Nat) (uid : String) (l : List ScheduleEntry) :
    ((∀ e ∈ l, matchesCriteria date st en uid e = false) →
      ledgerPull date st en uid l = l) ∧
    (∀ e ∈ l, matchesCriteria date st en uid e = true →
      e ∉ ledgerPull date st en uid l) ∧
    (∀ e ∈ l, matchesCriteria date st en uid e = false →
      e ∈ ledgerPull date st en uid l) ∧
    (ledgerPull date st en uid l).Sublist l ∧
    (ledgerPull date st en uid l).length + l.countP (matchesCriteria date st en uid) =
      l.length := by
  refine ⟨?_, ?_, ?_, List.filter_sublist l, ?_⟩
  · intro h
    exact List.filter_eq_self.mpr (fun e he => by simp [h e he])
  · intro e he hm hmem
    rw [ledgerPull, List.mem_filter] at hmem
    simp [hm] at hmem
  · intro e he hm
    rw [ledgerPull, List.mem_filter]
    exact ⟨he, by simp [hm]⟩
  · rw [ledgerPull]
    induction l with
    | nil => rfl
    | cons e rest ih =>
      cases hm : matchesCriteria date st en uid e <;>
        simp [List.filter_cons, List.countP_cons, hm] <;> omega

/-- Witness for C8 (amended): removing criteria that match nothing leaves the
ledger untouched and reports no error. -/
theorem claimC8_witness :
    ledgerPull 0 32400000 36000000 "u1"
      [{ date := 0, start_time := 50000000, end_time := 51000000, user_id := "u2", note := "" }]
      = [{ date := 0, start_time := 50000000, end_time := 51000000,
           user_id := "u2", note := "" }] :=
  (claimC8_pull_spec 0 32400000 36000000 "u1"
      [{ date := 0, start_time := 50000000, end_time := 51000000,
         user_id := "u2", note := "" }]).1 (by decide)

/-! ### Room-management operations and the ledger (C7 support) -/

theorem updateRoom_rooms_cases (role : String) (p : RoomUpdatePayload) (s : SysState) :
    ((updateRoom role p s).2).rooms = s.rooms ∨
    ∃ existing, s.rooms.find? (fun r => r.mid == p.id) = some existing ∧
      ((updateRoom role p s).2).rooms =
        s.rooms.map (fun r => if r.mid == p.id then applyRoomUpdate p existing else r) := by
  by_cases hrole : (role != "admin") = true
  · unfold updateRoom
    rw [if_pos hrole]
    exact Or.inl rfl
  · cases hfind : s.rooms.find? (fun r => r.mid == p.id) with
    | none =>
      unfold updateRoom
      rw [if_neg hrole, hfind]
      exact Or.inl rfl
    | some existing =>
      unfold updateRoom
      rw [if_neg hrole, hfind]
      dsimp only
      repeat' split
      all_goals first
        | exact Or.inl rfl
        | exact Or.inr ⟨existing, rfl, rfl⟩

theorem createRoom_rooms_cases (role : String) (p : RoomCreatePayload) (s : SysState) :
    ((createRoom role p s).2).rooms = s.rooms ∨
    ∃ r, ((createRoom role p s).2).rooms = s.rooms ++ [r] := by
  unfold createRoom
  dsimp only
  repeat' split
  all_goals first
    | exact Or.inl rfl
    | exact Or.inr ⟨_, rfl⟩

theorem deleteRoom_rooms_cases (role : String) (rid : Nat) (s : SysState) :
    ((deleteRoom role rid s).2).rooms = s.rooms ∨
    ((deleteRoom role rid s).2).rooms = s.rooms.filter (fun r => !(r.mid == rid)) := by
  unfold deleteRoom
  repeat' split
  all_goals first
    | exact Or.inl rfl
    | exact Or.inr rfl

/-- C7 counterexample: the admin room-update handler accepts a `schedules`
payload and replaces a room's ledger wholesale — here an update that carries
`schedules: []` erases an existing entry although the operation is neither a
successful acceptance nor a cancellation of an accepted booking. -/
theorem claimC7_counterexample :
    ((updateRoom "admin" { id := 1, schedules := some [] }
        { rooms := [{ mid := 1, room_id := "A101", name := "Alpha", location := "A",
                      capacity := 20, isActive := true, features := [], description := "",
                      schedules := [{ date := 0, start_time := 32400000, end_time := 36000000,
                                      user_id := "u1", note := "" }] }],
          bookings := [], nextMid := 2 }).2).rooms.map Room.schedules ≠
      ({ rooms := [{ mid := 1, room_id := "A101", name := "Alpha", location := "A",
                     capacity := 20, isActive := true, features := [], description := "",
                     schedules := [{ date := 0, start_time := 32400000, end_time := 36000000,
                                     user_id := "u1", note := "" }] }],
         bookings := [], nextMid := 2 } : SysState).rooms.map Room.schedules := by
  decide

/-- C7 (amended): room ledgers are mutated only at the named choke points.
Booking creation never touches the rooms collection; a REJECTED decision and
every failed decision leave it unchanged; cancellation of a booking that is
not ACCEPTED (or whose id is unknown) leaves it unchanged; the admin
room-update without a `schedules` payload preserves every room's schedules
(given distinct room ids); room creation leaves every pre-existing room
untouched; and room deletion only removes rooms.  The excluded mutators are
decideBooking(ACCEPTED), cancelBooking of an ACCEPTED booking, and the admin
room create/update operations given an explicit `schedules` payload. -/
theorem claimC7_ledger_choke_points :
    (∀ (uid : String) (rid : Nat) (d st en : Nat) (nt : String) (s : SysState),
      ((createBookingRequest uid rid d st en nt s).2).rooms = s.rooms) ∧
    (∀ (bid : String) (an : Option String) (s : SysState),
      ((decideBooking bid .REJECTED an s).2).rooms = s.rooms) ∧
    (∀ (bid : String) (dec : Decision) (an : Option String) (s : SysState)
        (e : BookingError), (decideBooking bid dec an s).1 = .error e →
      ((decideBooking bid dec an s).2).rooms = s.rooms) ∧
    (∀ (aid arole bid : String) (s : SysState),
      s.bookings.find? (fun x => x.booking_id == bid) = none →
      ((cancelBooking aid arole bid s).2).rooms = s.rooms) ∧
    (∀ (aid arole bid : String) (s : SysState) (b : Booking),
      s.bookings.find? (fun x => x.booking_id == bid) = some b →
      b.status ≠ .ACCEPTED →
      ((cancelBooking aid arole bid s).2).rooms = s.rooms) ∧
    (∀ (role : String) (p : RoomUpdatePayload) (s : SysState),
      midsNodup s → p.schedules = none →
      ((updateRoom role p s).2).rooms.map Room.schedules = s.rooms.map Room.schedules) ∧
    (∀ (role : String) (p : RoomCreatePayload) (s : SysState) (r : Room),
      r ∈ s.rooms → r ∈ ((createRoom role p s).2).rooms) ∧
    (∀ (role : String) (rid : Nat) (s : SysState) (r : Room),
      r ∈ ((deleteRoom role rid s).2).rooms → r ∈ s.rooms) := by
  refine ⟨?_, ?_, ?_, ?_, ?_, ?_, ?_, ?_⟩
  · intro uid rid d st en nt s
    exact create_rooms_eq uid rid d st en nt s
  · intro bid an s
    rcases decide_rooms_cases bid .REJECTED an s with h | ⟨b, room, hf, hp, hdec, hr, hc, h⟩
    · exact h
    · exact absurd hdec (by decide)
  · intro bid dec an s e herr
    rcases decide_rooms_cases bid dec an s with h | ⟨b, room, hf, hp, hdec, hr, hc, h⟩
    · exact h
    · subst hdec
      rw [decide_accept_ok hf hp hr hc] at herr
      simp at herr
  · intro aid arole bid s h
    rw [cancel_notFound h]
  · intro aid arole bid s b hf hst
    by_cases hperm : (arole != "admin" && b.user_id != aid) = true
    · rw [cancel_forbidden hf hperm]
    · rw [cancel_ok hf (by simpa using hperm)]
      simp [hst]
  · intro role p s hnd hsch
    rcases updateRoom_rooms_cases role p s with h | ⟨existing, hfind, h⟩
    · rw [h]
    · rw [h, List.map_map]
      apply List.map_congr_left
      intro r hr
      simp only [Function.comp_apply]
      by_cases hx : r.mid = p.id
      · have hre : r = existing := matching_mem_eq_found hnd hfind hr hx
        subst hre
        rw [if_pos (by simpa using hx)]
        simp [applyRoomUpdate, hsch]
      · rw [if_neg (by simpa using hx)]
  · intro role p s r hr
    rcases createRoom_rooms_cases role p s with h | ⟨r', h⟩
    · rw [h]; exact hr
    · rw [h]; exact List.mem_append_left _ hr
  · intro role rid s r hr
    rcases deleteRoom_rooms_cases role rid s with h | h
    · rw [h] at hr; exact hr
    · rw [h] at hr; exact List.mem_of_mem_filter hr

/-- Witness for C7 (amended): an admin room update that carries no
`schedules` payload preserves the room's ledger. -/
theorem claimC7_witness :
    ((updateRoom "admin" { id := 1, name := some "Beta" }
        { rooms := [{ mid := 1, room_id := "A101", name := "Alpha", location := "A",
                      capacity := 20, isActive := true, features := [], description := "",
                      schedules := [{ date := 0, start_time := 32400000, end_time := 36000000,
                                      user_id := "u1", note := "" }] }],
          bookings := [], nextMid := 2 }).2).rooms.map Room.schedules =
      ({ rooms := [{ mid := 1, room_id := "A101", name := "Alpha", location := "A",
                     capacity := 20, isActive := true, features := [], description := "",
                     schedules := [{ date := 0, start_time := 32400000, end_time := 36000000,
                                     user_id := "u1", note := "" }] }],
         bookings := [], nextMid := 2 } : SysState).rooms.map Room.schedules :=
  claimC7_ledger_choke_points.2.2.2.2.2.1 "admin" { id := 1, name := some "Beta" }
    { rooms := [{ mid := 1, room_id := "A101", name := "Alpha", location := "A",
                  capacity := 20, isActive := true, features := [], description := "",
                  schedules := [{ date := 0, start_time := 32400000, end_time := 36000000,
                                  user_id := "u1", note := "" }] }],
      bookings := [], nextMid := 2 }
    (by unfold midsNodup; decide) rfl

/-- C1: in every state reachable by any sequence of createBookingRequest,
decideBooking and cancelBooking calls from an initial system (rooms with
distinct ids and empty ledgers, no booking records), no two distinct entries
of any room's ledger overlap: entries on different calendar dates never
conflict, and entries on the same date have disjoint half-open time
ranges. -/
theorem claimC1_ledger_invariant {s : SysState} (h : Reachable s) :
    ∀ r ∈ s.rooms, r.schedules.Pairwise entriesDisjoint :=
  (reachable_inv h).2

/-- Witness for C1: in the state reached by one creation from a one-room
initial system, the room's ledger satisfies the invariant. -/
theorem claimC1_witness :
    ({ mid := 1, room_id := "A101", name := "Alpha", location := "A",
       capacity := 20, isActive := true, features := [], description := "",
       schedules := [] } : Room).schedules.Pairwise entriesDisjoint :=
  claimC1_ledger_invariant
    (Reachable.step
      (Reachable.init
        { rooms := [{ mid := 1, room_id := "A101", name := "Alpha", location := "A",
                      capacity := 20, isActive := true, features := [], description := "",
                      schedules := [] }],
          bookings := [], nextMid := 2 }
        (by decide) (by unfold midsNodup; decide) rfl)
      (Step.create "u1" 1 0 32400000 36000000 ""
        { rooms := [{ mid := 1, room_id := "A101", name := "Alpha", location := "A",
                      capacity := 20, isActive := true, features := [], description := "",
                      schedules := [] }],
          bookings := [], nextMid := 2 }))
    { mid := 1, room_id := "A101", name := "Alpha", location := "A",
      capacity := 20, isActive := true, features := [], description := "",
      schedules := [] }
    (by decide)

/-- C5: from a state with distinct room ids and fresh booking identifiers, a
successful creation followed by acceptance leaves exactly one ledger entry
matching the stored request's date, start, end and holder on the room;
cancelling that booking removes the entry and deletes the record, restoring
the original rooms and bookings, after which the same create succeeds
again. -/
theorem claimC5_round_trip {uid : String} {rid : Nat} {d st en : Nat} {nt : String}
    {s : SysState} {b : Booking} {s1 : SysState}
    (hnd : midsNodup s)
    (hfreshid : ∀ x ∈ s.bookings, x.booking_id ≠ mkBookingId (s.bookings.length + 1))
    (hfreshmid : ∀ x ∈ s.bookings, x.mid ≠ s.nextMid)
    (hc : createBookingRequest uid rid d st en nt s = (.ok b, s1)) :
    ∃ room s2 s3,
      s.rooms.find? (fun r => r.mid == rid) = some room ∧
      decideBooking b.booking_id .ACCEPTED none s1 = (.ok (), s2) ∧
      s2.rooms.find? (fun r => r.mid == rid) =
        some { room with schedules := room.schedules ++ [mkEntry b] } ∧
      (room.schedules ++ [mkEntry b]).countP
        (matchesCriteria b.booking_date b.start_time b.end_time b.user_id) = 1 ∧
      cancelBooking uid "admin" b.booking_id s2 = (.ok (), s3) ∧
      s3.rooms = s.rooms ∧ s3.bookings = s.bookings ∧
      (∃ b2 s4, createBookingRequest uid rid d st en nt s3 = (.ok b2, s4)) := by
  obtain ⟨room, hfind, hact, hwf, hledger, hpend, hdupfree, hb, hs1⟩ := create_ok_cases hc
  subst hs1
  have hbid : b.booking_id = mkBookingId (s.bookings.length + 1) := by rw [hb]
  have hbmid : b.mid = s.nextMid := by rw [hb]
  have hbrid : b.room_id = rid := by rw [hb]
  have hbst : b.start_time = st := by rw [hb]
  have hben : b.end_time = en := by rw [hb]
  have hbdate : b.booking_date = endOfDayTs d := by rw [hb]
  have hbp : b.status = BookingStatus.PENDING := by rw [hb]
  have hbwf : b.start_time < b.end_time := by rw [hbst, hben]; exact hwf
  -- the decision-time conflict re-check evaluates exactly like the
  -- request-time check, since the stored date is on the same calendar day
  have hfun : scheduleConflictTest (endOfDayTs d) st en = scheduleConflictTest d st en :=
    funext (fun e => scheduleConflictTest_endOfDay d st en e)
  have hc2 : room.schedules.any
      (scheduleConflictTest b.booking_date b.start_time b.end_time) = false := by
    rw [hbdate, hbst, hben, hfun]
    exact hledger
  -- locate the new booking and its room in the post-create state
  have hfreshid' : ∀ x ∈ s.bookings, x.booking_id ≠ b.booking_id := by
    intro x hx
    rw [hbid]
    exact hfreshid x hx
  have hf1 : ({ s with bookings := s.bookings ++ [b], nextMid := s.nextMid + 1 } :
      SysState).bookings.find? (fun x => x.booking_id == b.booking_id) = some b :=
    find?_append_fresh hfreshid'
  have hr1 : ({ s with bookings := s.bookings ++ [b], nextMid := s.nextMid + 1 } :
      SysState).rooms.find? (fun r => r.mid == b.room_id) = some room := by
    show s.rooms.find? (fun r => r.mid == b.room_id) = some room
    rw [hbrid]
    exact hfind
  have hacc := @decide_accept_ok b.booking_id none
    { rooms := s.rooms, bookings := s.bookings ++ [b], nextMid := s.nextMid + 1 }
    b room hf1 hbp hr1 hc2
  -- the accepted booking record
  have hb2mids : ∀ x ∈ s.bookings, x.mid ≠ b.mid := by
    intro x hx
    rw [hbmid]
    exact hfreshmid x hx
  have hsetb : setBookingDecision b.mid BookingStatus.ACCEPTED none (s.bookings ++ [b]) =
      s.bookings ++
        [{ b with status := BookingStatus.ACCEPTED, note := applyAdminNote b.note none }] :=
    setBookingDecision_append_fresh hb2mids
  -- no pre-existing entry of the room matches the removal criteria
  have hnomatch : ∀ x ∈ room.schedules,
      matchesCriteria b.booking_date b.start_time b.end_time b.user_id x = false := by
    intro x hx
    by_contra hm
    have hm' : matchesCriteria b.booking_date b.start_time b.end_time b.user_id x = true := by
      simpa using hm
    have hconf := matching_entry_conflicts hbwf hm'
    rw [List.any_eq_false] at hc2
    exact absurd hconf (by simpa using hc2 x hx)
  have hcount : (room.schedules ++ [mkEntry b]).countP
      (matchesCriteria b.booking_date b.start_time b.end_time b.user_id) = 1 := by
    rw [List.countP_append]
    have h0 : room.schedules.countP
        (matchesCriteria b.booking_date b.start_time b.end_time b.user_id) = 0 :=
      List.countP_eq_zero.mpr (fun x hx => by simp [hnomatch x hx])
    have h1 : ([mkEntry b] : List ScheduleEntry).countP
        (matchesCriteria b.booking_date b.start_time b.end_time b.user_id) = 1 := by
      rw [List.countP_singleton]
      simp [matchesCriteria, mkEntry]
    rw [h0, h1]
  -- cancellation data: the accepted record, the pull and the filter
  have hf2 : ({ rooms := pushSchedule b.room_id (mkEntry b) s.rooms,
                bookings := setBookingDecision b.mid BookingStatus.ACCEPTED none
                  (s.bookings ++ [b]),
                nextMid := s.nextMid + 1 } : SysState).bookings.find?
      (fun x => x.booking_id == b.booking_id) =
      some { b with status := BookingStatus.ACCEPTED, note := applyAdminNote b.note none } := by
    show (setBookingDecision b.mid BookingStatus.ACCEPTED none (s.bookings ++ [b])).find?
      (fun x => x.booking_id == b.booking_id) = _
    rw [hsetb]
    exact find?_append_fresh
      (b := { b with status := BookingStatus.ACCEPTED, note := applyAdminNote b.note none })
      (fun x hx => hfreshid' x hx)
  have hperm : (("admin" != "admin") &&
      ({ b with status := BookingStatus.ACCEPTED, note := applyAdminNote b.note none }
        : Booking).user_id != uid) = false := by
    simp
  have hfindb : s.rooms.find? (fun r => r.mid == b.room_id) = some room := by
    rw [hbrid]
    exact hfind
  have hpull : pullSchedules
      { b with status := BookingStatus.ACCEPTED, note := applyAdminNote b.note none }
      (pushSchedule b.room_id (mkEntry b) s.rooms) = s.rooms := by
    refine pull_push_restore _ _ hnd hfindb rfl ?_ hnomatch
    simp [matchesCriteria, mkEntry]
  have hfilter2 : (setBookingDecision b.mid BookingStatus.ACCEPTED none
        (s.bookings ++ [b])).filter
      (fun x => !(x.mid ==
        ({ b with status := BookingStatus.ACCEPTED, note := applyAdminNote b.note none }
          : Booking).mid)) = s.bookings := by
    rw [hsetb]
    exact filter_mids_append_fresh rfl hb2mids
  refine ⟨room, _, _, hfind, hacc, ?_, hcount, cancel_ok hf2 hperm, ?_, ?_, ?_⟩
  · -- the pushed room is found with the appended entry
    rw [hbrid]
    exact find?_pushSchedule (mkEntry b) hfind
  · -- the rooms collection is restored
    exact hpull
  · -- the booking record is deleted, everything else stays
    exact hfilter2
  · -- the same create succeeds from the restored state
    refine ⟨_, _, create_ok_of_conditions ?_ hact hwf hledger ?_ ?_⟩
    · have hgoal := hfind
      rw [← hpull] at hgoal
      exact hgoal
    · have hgoal := hpend
      rw [← hfilter2] at hgoal
      exact hgoal
    · have hgoal := hdupfree
      rw [← hfilter2] at hgoal
      exact hgoal

/-- Witness for C5: a full create/accept/cancel/create round trip on a
one-room system, run at concrete values. -/
theorem claimC5_witness :
    ∃ room s2 s3,
      ([{ mid := 1, room_id := "A101", name := "Alpha", location := "A", capacity := 20,
          isActive := true, features := [], description := "", schedules := [] }] :
        List Room).find? (fun r => r.mid == 1) = some room ∧
      decideBooking "BK00001" .ACCEPTED none
        { rooms := [{ mid := 1, room_id := "A101", name := "Alpha", location := "A",
                      capacity := 20, isActive := true, features := [], description := "",
                      schedules := [] }],
          bookings := [{ mid := 0, booking_id := "BK00001", user_id := "u1", room_id := 1,
                         booking_date := 86399999, start_time := 32400000,
                         end_time := 36000000, note := "", status := .PENDING }],
          nextMid := 1 } = (.ok (), s2) ∧
      s2.rooms.find? (fun r => r.mid == 1) =
        some { room with schedules := room.schedules ++
          [{ date := 86399999, start_time := 32400000, end_time := 36000000,
             user_id := "u1", note := "" }] } ∧
      (room.schedules ++
        [({ date := 86399999, start_time := 32400000, end_time := 36000000,
            user_id := "u1", note := "" } : ScheduleEntry)]).countP
        (matchesCriteria 86399999 32400000 36000000 "u1") = 1 ∧
      cancelBooking "u1" "admin" "BK00001" s2 = (.ok (), s3) ∧
      s3.rooms = [{ mid := 1, room_id := "A101", name := "Alpha", location := "A",
                    capacity := 20, isActive := true, features := [], description := "",
                    schedules := [] }] ∧
      s3.bookings = [] ∧
      (∃ b2 s4, createBookingRequest "u1" 1 0 32400000 36000000 "" s3 = (.ok b2, s4)) := by
  have hc : createBookingRequest "u1" 1 0 32400000 36000000 ""
      { rooms := [{ mid := 1, room_id := "A101", name := "Alpha", location := "A",
                    capacity := 20, isActive := true, features := [], description := "",
                    schedules := [] }],
        bookings := [], nextMid := 0 } =
      (.ok { mid := 0, booking_id := "BK00001", user_id := "u1", room_id := 1,
             booking_date := 86399999, start_time := 32400000, end_time := 36000000,
             note := "", status := .PENDING },
       { rooms := [{ mid := 1, room_id := "A101", name := "Alpha", location := "A",
                     capacity := 20, isActive := true, features := [], description := "",
                     schedules := [] }],
         bookings := [{ mid := 0, booking_id := "BK00001", user_id := "u1", room_id := 1,
                        booking_date := 86399999, start_time := 32400000,
                        end_time := 36000000, note := "", status := .PENDING }],
         nextMid := 1 }) := by rfl
  exact claimC5_round_trip (by unfold midsNodup; decide) (by decide) (by decide) hc

end RoomBooking
